import Mathlib

/-!
Verification development for the per-row scrape-and-write pipeline scripts.

Each Python source file is shallowly embedded as a Lean namespace.  DOM and
network effects are modelled by explicit environments (`Option String` fields:
`none` means the element never appeared and the corresponding Selenium /
pyppeteer call raised, `some t` means it appeared with text `t`).  Spreadsheet
writes are recorded as explicit `Write` values in the order the scripts issue
them.  Browser lifecycle events are counted (`opens`, `closes`).
-/

/-- Python `str.strip()`: remove leading and trailing whitespace.  Written on
the character list so that it evaluates by kernel reduction. -/
def pyStrip (s : String) : String :=
  String.mk (((s.data.dropWhile Char.isWhitespace).reverse.dropWhile
    Char.isWhitespace).reverse)

/-- Python `str.lower()` (ASCII fragment, which is all these scripts use). -/
def pyLower (s : String) : String :=
  String.mk (s.data.map Char.toLower)

/-- Python `str.upper()` (ASCII fragment). -/
def pyUpper (s : String) : String :=
  String.mk (s.data.map Char.toUpper)

/-- Python `needle in hay` on strings: contiguous substring containment. -/
def pyContains (hay needle : String) : Bool :=
  (List.range (hay.data.length + 1)).any fun k =>
    needle.data.isPrefixOf (hay.data.drop k)

/-- A spreadsheet cell, addressed by column letter and 1-based row number. -/
structure CellRef where
  col : String
  row : Nat
deriving DecidableEq

/-- One `values().update` call: a target cell and the raw value written. -/
structure Write where
  cell : CellRef
  val : String
deriving DecidableEq

/-- Overwrite semantics of a single RAW update on a sheet state. -/
def applyWrite (s : CellRef → String) (w : Write) : CellRef → String :=
  fun c => if c = w.cell then w.val else s c

/-- Apply a list of updates in order. -/
def applyWrites (s : CellRef → String) (ws : List Write) : CellRef → String :=
  ws.foldl applyWrite s

/-- The value a cell holds after a list of writes: the last write to it, if any. -/
def lastVal (ws : List Write) (c : CellRef) : Option String :=
  ws.foldl (fun acc w => if w.cell = c then some w.val else acc) none

theorem lastVal_foldl (ws : List Write) (c : CellRef) (a : Option String) :
    ws.foldl (fun acc w => if w.cell = c then some w.val else acc) a =
      (lastVal ws c).orElse (fun _ => a) := by
  induction ws generalizing a with
  | nil => simp [lastVal]
  | cons w ws ih =>
    simp only [List.foldl_cons, lastVal]
    rw [ih, ih (if w.cell = c then some w.val else none)]
    by_cases h : w.cell = c <;> cases hl : lastVal ws c <;>
      simp [h, hl, Option.orElse]

theorem lastVal_cons (w : Write) (ws : List Write) (c : CellRef) :
    lastVal (w :: ws) c =
      (lastVal ws c).orElse (fun _ => if w.cell = c then some w.val else none) := by
  simp only [lastVal, List.foldl_cons]
  exact lastVal_foldl ws c _

theorem applyWrites_eq_lastVal (ws : List Write) (s : CellRef → String) (c : CellRef) :
    applyWrites s ws c = (lastVal ws c).getD (s c) := by
  induction ws generalizing s with
  | nil => simp [applyWrites, lastVal]
  | cons w ws ih =>
    show applyWrites (applyWrite s w) ws c = _
    rw [ih, lastVal_cons]
    cases hl : lastVal ws c with
    | none =>
      by_cases h : w.cell = c
      · simp [Option.orElse, applyWrite, h]
      · simp only [Option.orElse, applyWrite, if_neg h, Option.getD_none]
        rw [if_neg (fun hc => h hc.symm)]
    | some v => simp [Option.orElse]

/-- Re-applying the same writes leaves the sheet unchanged (overwrite, no
accumulation). -/
theorem applyWrites_idem (s : CellRef → String) (ws : List Write) :
    applyWrites (applyWrites s ws) ws = applyWrites s ws := by
  funext c
  rw [applyWrites_eq_lastVal, applyWrites_eq_lastVal]
  cases hl : lastVal ws c <;> simp [hl]

namespace MainPy

/-- The constant `string.ascii_uppercase` used by `get_column_letter`. -/
def asciiUppercase : List Char := "ABCDEFGHIJKLMNOPQRSTUVWXYZ".toList

/-- Embedding of `get_column_letter` (src/main.py, line 273).  Python raises
`IndexError` when the computed letter index falls outside the 26-letter list;
that is modelled as `none`. -/
def get_column_letter (index : Nat) : Option String :=
  if index < 26 then
    (asciiUppercase.get? index).map (fun c => String.mk [c])
  else
    match asciiUppercase.get? (index / 26 - 1), asciiUppercase.get? (index % 26) with
    | some c1, some c2 => some (String.mk [c1, c2])
    | _, _ => none

end MainPy

namespace RapidAPI

/-- Embedding of `get_column_name` (src/rapid_API.py, line 33): the while loop
prepends `chr(index % 26 + 65)` and replaces `index` by `index // 26 - 1`
until it goes negative. -/
def get_column_name (index : Nat) : String :=
  let c := Char.ofNat (index % 26 + 65)
  if index < 26 then String.mk [c]
  else get_column_name (index / 26 - 1) ++ String.mk [c]
decreasing_by
  have hlt : index / 26 < index := Nat.div_lt_self (by omega) (by omega)
  omega

theorem get_column_name_lt26 (n : Nat) (h : n < 26) :
    get_column_name n = String.mk [Char.ofNat (n % 26 + 65)] := by
  rw [get_column_name]
  simp [h]

theorem get_column_name_ge26 (n : Nat) (h : ¬ n < 26) :
    get_column_name n =
      get_column_name (n / 26 - 1) ++ String.mk [Char.ofNat (n % 26 + 65)] := by
  rw [get_column_name]
  simp [h]

theorem get_column_name_length_one (n : Nat) (h : n < 26) :
    (get_column_name n).length = 1 := by
  rw [get_column_name_lt26 n h]
  rfl

theorem get_column_name_length_pos (n : Nat) : 1 ≤ (get_column_name n).length := by
  by_cases h : n < 26
  · rw [get_column_name_length_one n h]
  · rw [get_column_name_ge26 n h, String.length_append]
    have := get_column_name_length_pos (n / 26 - 1)
    omega
decreasing_by
  have hlt : n / 26 < n := Nat.div_lt_self (by omega) (by omega)
  omega

theorem get_column_name_length_two (n : Nat) (h1 : 26 ≤ n) (h2 : n ≤ 701) :
    (get_column_name n).length = 2 := by
  rw [get_column_name_ge26 n (by omega), String.length_append,
    get_column_name_length_one (n / 26 - 1) (by omega)]
  rfl

theorem get_column_name_length_ge_two (n : Nat) (h1 : 26 ≤ n) :
    2 ≤ (get_column_name n).length := by
  rw [get_column_name_ge26 n (by omega), String.length_append]
  have := get_column_name_length_pos (n / 26 - 1)
  have : (String.mk [Char.ofNat (n % 26 + 65)]).length = 1 := rfl
  omega

end RapidAPI

namespace MainPy

theorem asciiUppercase_get (n : Nat) (h : n < 26) :
    asciiUppercase.get? n = some (Char.ofNat (n + 65)) := by
  have key : ∀ m : Fin 26, asciiUppercase.get? m.val = some (Char.ofNat (m.val + 65)) := by
    decide
  exact key ⟨n, h⟩

theorem asciiUppercase_get_none (n : Nat) (h : 26 ≤ n) :
    asciiUppercase.get? n = none := by
  apply List.get?_eq_none.mpr
  have : asciiUppercase.length = 26 := rfl
  omega

theorem get_column_letter_lt26 (n : Nat) (h : n < 26) :
    get_column_letter n = some (String.mk [Char.ofNat (n + 65)]) := by
  rw [get_column_letter, if_pos h, asciiUppercase_get n h]
  rfl

theorem get_column_letter_mid (n : Nat) (h1 : 26 ≤ n) (h2 : n ≤ 701) :
    get_column_letter n =
      some (String.mk [Char.ofNat (n / 26 - 1 + 65), Char.ofNat (n % 26 + 65)]) := by
  rw [get_column_letter, if_neg (by omega)]
  rw [asciiUppercase_get (n / 26 - 1) (by omega), asciiUppercase_get (n % 26) (by omega)]

theorem get_column_letter_big (n : Nat) (h : 702 ≤ n) : get_column_letter n = none := by
  rw [get_column_letter, if_neg (by omega)]
  rw [asciiUppercase_get_none (n / 26 - 1) (by omega)]

end MainPy

/-- C10: for every index between 0 and 701, `get_column_letter` in main.py and
`get_column_name` in rapid_API.py return the same column-letter string
(A..Z for 0..25, AA..ZZ for 26..701); for index ≥ 702, `get_column_letter`
raises (modelled as `none`) while `get_column_name` still returns a name of at
least three letters, exactly three up to index 18277. -/
theorem C10_column_functions_agree :
    (∀ n : Nat, n ≤ 701 → MainPy.get_column_letter n = some (RapidAPI.get_column_name n)) ∧
    (∀ n : Nat, 702 ≤ n →
      MainPy.get_column_letter n = none ∧ 3 ≤ (RapidAPI.get_column_name n).length) ∧
    (∀ n : Nat, 702 ≤ n → n ≤ 18277 → (RapidAPI.get_column_name n).length = 3) := by
  refine ⟨fun n hn => ?_, fun n hn => ⟨MainPy.get_column_letter_big n hn, ?_⟩,
    fun n hn1 hn2 => ?_⟩
  · by_cases h : n < 26
    · rw [MainPy.get_column_letter_lt26 n h, RapidAPI.get_column_name_lt26 n h,
        Nat.mod_eq_of_lt h]
    · rw [MainPy.get_column_letter_mid n (by omega) hn,
        RapidAPI.get_column_name_ge26 n h,
        RapidAPI.get_column_name_lt26 (n / 26 - 1) (by omega),
        Nat.mod_eq_of_lt (show n / 26 - 1 < 26 by omega)]
      rfl
  · rw [RapidAPI.get_column_name_ge26 n (by omega), String.length_append]
    have h2 := RapidAPI.get_column_name_length_ge_two (n / 26 - 1) (by omega)
    have h1 : (String.mk [Char.ofNat (n % 26 + 65)]).length = 1 := rfl
    omega
  · rw [RapidAPI.get_column_name_ge26 n (by omega), String.length_append,
      RapidAPI.get_column_name_length_two (n / 26 - 1) (by omega) (by omega)]
    rfl

namespace MainPy

/-- Embedding of `get_sheet_data` (src/main.py, line 47): the comprehension
`[(i + base_row, row[0].strip()) for i, row in enumerate(values) if row and
len(row) > 0 and row[0].strip()]`.  Note the row number is computed from the
position in the unfiltered `values`. -/
def get_sheet_data (values : List (List String)) (baseRow : Nat) : List (Nat × String) :=
  values.enum.filterMap fun p =>
    match p.2.head? with
    | some s => if pyStrip s = "" then none else some (p.1 + baseRow, pyStrip s)
    | none => none

end MainPy

namespace RapidAPI

/-- Embedding of the URL list construction in `main` (src/rapid_API.py,
lines 213-221): `urls = [val[0] for val in values if val and val[0]]` followed
by `enumerate(urls, start=2)`.  The filter runs before the enumeration. -/
def main_url_rows (values : List (List String)) : List (Nat × String) :=
  let urls := values.filterMap fun v =>
    match v.head? with
    | some s => if s = "" then none else some s
    | none => none
  urls.enum.map fun p => (p.1 + 2, p.2)

end RapidAPI

/-- C5 counterexample: with a blank cell between two keys, rapid_API.py's main
assigns row 3 to the URL that actually sits in sheet row 4 (main.py's
get_sheet_data keeps the original row number 4), so skipping the blank cell
shifts the row index of the subsequent key. -/
theorem C5_counterexample :
    MainPy.get_sheet_data [["a"], [], ["b"]] 2 = [(2, "a"), (4, "b")] ∧
    RapidAPI.main_url_rows [["a"], [], ["b"]] = [(2, "a"), (3, "b")] ∧
    (3 : Nat) ≠ 4 := by
  refine ⟨?_, rfl, by omega⟩
  decide

/-- C5 as amended: main.py's `get_sheet_data` skips blank cells and keeps every
remaining key at its original row number (base row plus its position in the
unfiltered range); rapid_API.py's `main` instead numbers the filtered list
consecutively from 2, so each skipped blank shifts all later row indices. -/
theorem C5_source_reader_row_numbers :
    (∀ (values : List (List String)) (b : Nat) (p : Nat × String),
        p ∈ MainPy.get_sheet_data values b →
          b ≤ p.1 ∧ p.1 - b < values.length ∧
          ∃ s, (values.get? (p.1 - b)).bind List.head? = some s ∧
            pyStrip s = p.2 ∧ pyStrip s ≠ "") ∧
    (∀ (values : List (List String)) (b i : Nat) (s : String),
        (values.get? i).bind List.head? = some s → pyStrip s ≠ "" →
          (i + b, pyStrip s) ∈ MainPy.get_sheet_data values b) ∧
    (∀ (values : List (List String)) (j : Nat)
        (h : j < (RapidAPI.main_url_rows values).length),
        ((RapidAPI.main_url_rows values).get ⟨j, h⟩).1 = 2 + j) := by
  refine ⟨?_, ?_, ?_⟩
  · intro values b p hp
    obtain ⟨⟨i, row⟩, hq, he⟩ := List.mem_filterMap.mp hp
    have hrow : values[i]? = some row := List.mk_mem_enum_iff_getElem?.mp hq
    have hlen : i < values.length := by
      by_contra hc
      rw [List.getElem?_eq_none (by omega)] at hrow
      exact Option.noConfusion hrow
    cases hh : row.head? with
    | none => simp [hh] at he
    | some s =>
      by_cases ht : pyStrip s = ""
      · simp [hh, ht] at he
      · simp only [hh, if_neg ht] at he
        have hpe : p = (i + b, pyStrip s) := by
          injection he with h2
          exact h2.symm
        subst hpe
        refine ⟨by omega, by simpa using hlen, s, ?_, rfl, ht⟩
        have hib : i + b - b = i := by omega
        rw [hib, List.get?_eq_getElem?, hrow]
        simpa using hh
  · intro values b i s hs ht
    cases hv : values.get? i with
    | none => rw [hv] at hs; exact Option.noConfusion hs
    | some row =>
      rw [hv, Option.some_bind] at hs
      refine List.mem_filterMap.mpr ⟨(i, row), ?_, ?_⟩
      · exact List.mk_mem_enum_iff_getElem?.mpr
          (by rw [List.get?_eq_getElem?] at hv; exact hv)
      · simp [hs, if_neg ht]
  · intro values j h
    simp only [RapidAPI.main_url_rows, List.get_eq_getElem, List.getElem_map,
      List.getElem_enum]
    omega

/-- Witness for C5 at a concrete sheet. -/
theorem C5_source_reader_row_numbers_witness :
    ((2 : Nat) + 2, pyStrip "b") ∈ MainPy.get_sheet_data [["a"], [], ["b"]] 2 :=
  C5_source_reader_row_numbers.2.1 [["a"], [], ["b"]] 2 2 "b" (by decide) (by decide)

/-- Witness for C10 at concrete indices 701 and 702. -/
theorem C10_column_functions_agree_witness :
    MainPy.get_column_letter 701 = some (RapidAPI.get_column_name 701) ∧
    MainPy.get_column_letter 702 = none ∧
    (RapidAPI.get_column_name 702).length = 3 :=
  ⟨C10_column_functions_agree.1 701 (by omega),
   (C10_column_functions_agree.2.1 702 (by omega)).1,
   C10_column_functions_agree.2.2 702 (by omega) (by omega)⟩

namespace PalmBayPA4

/-- Per-row DOM/network environment for `process_row` in palmBayPA4.py.
A `false`/`none` field means the corresponding wait or lookup raised. -/
structure RowEnv where
  launchOk : Bool
  siteInput : Bool
  resultAnchor : Bool
  ownership : Option String
  additional : Option String
  salesValue : Option String
  bldg : Option String
deriving DecidableEq

/-- Embedding of `extract_text` (palmBayPA4.py, line 44): wait for the element
and return its stripped text; on `NoSuchElementException`/`TimeoutException`
return the default value. -/
def extract_text (field : Option String) (defaultValue : String) : String :=
  match field with
  | some t => pyStrip t
  | none => defaultValue

/-- The default value `"Not Found"` used at every `extract_text` call site. -/
def notFound : String := "Not Found"

/-- Embedding of `update_google_sheet` (palmBayPA4.py, line 54): four
sequential RAW updates to cells C{i}, D{i}, E{i} and F{i}. -/
def update_google_sheet (i : Nat)
    (ownershipText additionalText propertyValue bldgInfo : String) : List Write :=
  [⟨⟨"C", i⟩, ownershipText⟩, ⟨⟨"D", i⟩, additionalText⟩,
   ⟨⟨"E", i⟩, propertyValue⟩, ⟨⟨"F", i⟩, bldgInfo⟩]

/-- Trace of one `process_row` call: the sheet updates issued, how many
browser instances were launched and quit, and whether the except branch ran. -/
structure RowTrace where
  writes : List Write
  opens : Nat
  closes : Nat
  errored : Bool
deriving DecidableEq

/-- Embedding of `process_row` (palmBayPA4.py, line 87): `driver = None`;
try: launch Firefox, navigate, wait for the search box, wait for the result
anchor, extract four fields, write them; except: log the error; finally:
`driver.quit()` whenever `driver` was created. -/
def process_row (env : RowEnv) (i : Nat) : RowTrace :=
  if ¬ env.launchOk then ⟨[], 0, 0, true⟩
  else if ¬ env.siteInput then ⟨[], 1, 1, true⟩
  else if ¬ env.resultAnchor then ⟨[], 1, 1, true⟩
  else
    ⟨update_google_sheet i (extract_text env.ownership notFound)
        (extract_text env.additional notFound)
        (extract_text env.salesValue notFound)
        (extract_text env.bldg notFound),
     1, 1, false⟩

/-- Embedding of the batch loop in `fetch_data_and_update_sheet`
(palmBayPA4.py, line 142): `site = row[0].strip() if row else None`; skip
falsy sites, otherwise `process_row`. -/
def runRows (envs : Nat → RowEnv) : List (List String) → Nat → List (Nat × RowTrace)
  | [], _ => []
  | row :: rest, start =>
    let site := match row.head? with
      | some s => pyStrip s
      | none => ""
    if site = "" then runRows envs rest (start + 1)
    else (start, process_row (envs start) start) :: runRows envs rest (start + 1)

end PalmBayPA4

namespace RealForeclose

/-- The destination sheet as `log_data_to_google_sheets` observes it: the
cells of column A that currently hold a value (the `A:A` read returns exactly
these). -/
structure SheetA where
  colA : List String
deriving DecidableEq

/-- Python `last_row = len(all_data.get("values", [])) + 1`
(realForeclose.py, line 122). -/
def last_row (s : SheetA) : Nat := s.colA.length + 1

/-- Header titles written to A1:H1 when row 1 is empty. -/
def headers : List String :=
  ["Auction Time", "CaseNumber", "Final Judgement", "ParcelID",
   "Site Address", "City & Zipcode", "Parcel URL"]

/-- Column letters of the A{r}:H{r'} destination range, left to right. -/
def columnsAH : List String := ["A", "B", "C", "D", "E", "F", "G", "H"]

/-- The writes produced by one row-major ranged update starting at row `r`:
row `i` of `data` lands in row `r + i`, its fields in columns A, B, C, ... -/
def log_rows_from (r : Nat) : List (List String) → List Write
  | [] => []
  | vals :: rest =>
    ((vals.zip columnsAH).map fun q => ⟨⟨q.2, r⟩, q.1⟩) ++ log_rows_from (r + 1) rest

/-- Embedding of `log_data_to_google_sheets` (realForeclose.py, line 107):
optionally write the header row, then write `data` into the range
`A{last_row}:H{last_row + len(data) - 1}`. -/
def log_data_to_google_sheets (s : SheetA) (firstRowEmpty : Bool)
    (data : List (List String)) : List Write :=
  (if firstRowEmpty then (headers.zip columnsAH).map fun q => ⟨⟨q.2, 1⟩, q.1⟩
   else []) ++ log_rows_from (last_row s) data

/-- Column A after the ranged update: each data row contributed its first
field to a fresh row below the previous end of the column. -/
def sheet_after (s : SheetA) (data : List (List String)) : SheetA :=
  ⟨s.colA ++ data.map fun r => r.headD ""⟩

/-- Shifting the start row of the ranged update shifts every target row. -/
theorem log_rows_from_add (k : Nat) (data : List (List String)) :
    ∀ r, log_rows_from (r + k) data =
      (log_rows_from r data).map fun w => ⟨⟨w.cell.col, w.cell.row + k⟩, w.val⟩ := by
  induction data with
  | nil => intro r; rfl
  | cons vals rest ih =>
    intro r
    show ((vals.zip columnsAH).map fun q => ⟨⟨q.2, r + k⟩, q.1⟩) ++
        log_rows_from (r + k + 1) rest = _
    have h1 : r + k + 1 = r + 1 + k := by omega
    rw [h1, ih (r + 1)]
    simp [log_rows_from, List.map_map, Function.comp]

theorem last_row_sheet_after (s : SheetA) (data : List (List String)) :
    last_row (sheet_after s data) = last_row s + data.length := by
  simp [last_row, sheet_after]
  omega

end RealForeclose

/-- C6 counterexample: realForeclose.py's `log_data_to_google_sheets` appends
below the last non-empty row of column A.  With three rows already present,
a first run writes rows 4-5; after that run column A has five rows, so
re-running the same data writes rows 6-7 — different cells, accumulation,
not an idempotent overwrite. -/
theorem C6_counterexample :
    ((RealForeclose.log_data_to_google_sheets ⟨["h", "x1", "x2"]⟩ false
        [["d1", "c1"], ["d2", "c2"]]).map fun w => w.cell) =
      [⟨"A", 4⟩, ⟨"B", 4⟩, ⟨"A", 5⟩, ⟨"B", 5⟩] ∧
    ((RealForeclose.log_data_to_google_sheets
        (RealForeclose.sheet_after ⟨["h", "x1", "x2"]⟩ [["d1", "c1"], ["d2", "c2"]])
        false [["d1", "c1"], ["d2", "c2"]]).map fun w => w.cell) =
      [⟨"A", 6⟩, ⟨"B", 6⟩, ⟨"A", 7⟩, ⟨"B", 7⟩] ∧
    ([(⟨"A", 4⟩ : CellRef), ⟨"B", 4⟩, ⟨"A", 5⟩, ⟨"B", 5⟩] ≠
      [(⟨"A", 6⟩ : CellRef), ⟨"B", 6⟩, ⟨"A", 7⟩, ⟨"B", 7⟩]) := by
  refine ⟨by decide, by decide, by decide⟩

/-- C6 as amended: the per-row scripts write idempotent overwrites —
palmBayPA4's `update_google_sheet` targets cells C/D/E/F at the key's own row
index, independent of the values or of previous runs, and re-applying any
write list leaves the sheet unchanged; realForeclose.py, by contrast, starts
its ranged write at `len(column A) + 1`, so every target row shifts down by
`len(data)` on each re-run (append/accumulate, not overwrite). -/
theorem C6_sink_writes_idempotent_or_append :
    (∀ (i : Nat) (a b c d : String),
        ((PalmBayPA4.update_google_sheet i a b c d).map fun w => w.cell) =
          [⟨"C", i⟩, ⟨"D", i⟩, ⟨"E", i⟩, ⟨"F", i⟩]) ∧
    (∀ (s : CellRef → String) (ws : List Write),
        applyWrites (applyWrites s ws) ws = applyWrites s ws) ∧
    (∀ (s : RealForeclose.SheetA) (data : List (List String)),
        RealForeclose.log_rows_from
            (RealForeclose.last_row (RealForeclose.sheet_after s data)) data =
          (RealForeclose.log_rows_from (RealForeclose.last_row s) data).map
            fun w => ⟨⟨w.cell.col, w.cell.row + data.length⟩, w.val⟩) := by
  refine ⟨fun i a b c d => rfl, applyWrites_idem, fun s data => ?_⟩
  rw [RealForeclose.last_row_sheet_after]
  exact RealForeclose.log_rows_from_add data.length data (RealForeclose.last_row s)

namespace LeePA03

/-- Outcome of one `http.request` attempt inside `make_request_with_retries`:
success, a `ProtocolError` (the only caught exception), or any other
exception. -/
inductive AttemptResult
  | ok (resp : String)
  | protocolError
  | otherError
deriving DecidableEq

/-- How `make_request_with_retries` can fail: the final
`raise Exception(...)` after the loop, or an uncaught non-protocol error. -/
inductive ReqErr
  | exhausted
  | uncaught
deriving DecidableEq

/-- Trace of `make_request_with_retries`: attempts performed, the sleep
durations between them, and the final result. -/
structure ReqTrace where
  attemptsMade : Nat
  delays : List Nat
  result : Except ReqErr String

/-- Embedding of the `while attempt < retries` loop of
`make_request_with_retries` (leePA_03.py, line 19).  The first argument of
the recursion is the current `attempt` counter, the second the remaining
iterations `retries - attempt`.  On `ProtocolError` the code increments
`attempt` and sleeps `backoff_factor * (2 ** attempt)` with the incremented
counter. -/
def requestLoop (outcomes : Nat → AttemptResult) (backoff : Nat) :
    Nat → Nat → ReqTrace
  | _, 0 => ⟨0, [], .error .exhausted⟩
  | attempt, budget + 1 =>
    match outcomes attempt with
    | .ok r => ⟨1, [], .ok r⟩
    | .protocolError =>
      let d := backoff * 2 ^ (attempt + 1)
      let t := requestLoop outcomes backoff (attempt + 1) budget
      ⟨t.attemptsMade + 1, d :: t.delays, t.result⟩
    | .otherError => ⟨1, [], .error .uncaught⟩

/-- Embedding of `make_request_with_retries(url, retries, backoff_factor)`. -/
def make_request_with_retries (outcomes : Nat → AttemptResult)
    (retries backoff : Nat) : ReqTrace :=
  requestLoop outcomes backoff 0 retries

theorem requestLoop_attempts_le (outcomes : Nat → AttemptResult) (backoff : Nat) :
    ∀ (budget attempt : Nat),
      (requestLoop outcomes backoff attempt budget).attemptsMade ≤ budget := by
  intro budget
  induction budget with
  | zero => intro attempt; simp [requestLoop]
  | succ b ih =>
    intro attempt
    show (requestLoop outcomes backoff attempt (b + 1)).attemptsMade ≤ b + 1
    rw [requestLoop]
    cases outcomes attempt with
    | ok r => simp
    | protocolError =>
      have := ih (attempt + 1)
      simpa using this
    | otherError => simp

theorem requestLoop_delays (outcomes : Nat → AttemptResult) (backoff : Nat) :
    ∀ (budget attempt k : Nat)
      (h : k < (requestLoop outcomes backoff attempt budget).delays.length),
      (requestLoop outcomes backoff attempt budget).delays.get ⟨k, h⟩ =
        backoff * 2 ^ (attempt + k + 1) := by
  intro budget
  induction budget with
  | zero => intro attempt k h; simp [requestLoop] at h
  | succ b ih =>
    intro attempt k h
    revert h
    rw [requestLoop]
    cases outcomes attempt with
    | ok r => intro h; simp at h
    | protocolError =>
      intro h
      cases k with
      | zero => rfl
      | succ k =>
        have := ih (attempt + 1) k (by simpa using Nat.lt_of_succ_lt_succ (by simpa using h))
        simpa [Nat.add_assoc, Nat.add_comm, Nat.add_left_comm] using this
    | otherError => intro h; simp at h

/-- Exceptions a row of `fetch_data_and_update_sheet` can end with. -/
inductive Err
  | timeout
  | noSuchElement
  | apiError
deriving DecidableEq

/-- Per-row environment for `fetch_data_and_update_sheet` (leePA_03.py).
Boolean fields say whether the awaited element appeared; `Option String`
fields carry the text of elements read with `.text` (`none` = the lookup
raised). -/
structure Env where
  launchOk : Bool
  strapInput : Bool
  popupPanel : Bool
  popupButton : Bool
  resultHref : Bool
  img : Bool
  ownership : Option String
  additional : Option String
  valuesTab : Bool
  valueGrid : Option String
  bldg : Option String
  fullSite : Option String
  writeOk : Bool
deriving DecidableEq

/-- The pop-up block before exception handling (leePA_03.py, lines 119-127):
wait up to 60s for `pnlIssues`, find the warning button, click it. -/
def dismissWarningAttempt (env : Env) : Except Err Unit :=
  if env.popupPanel then
    if env.popupButton then .ok () else .error .noSuchElement
  else .error .timeout

/-- The pop-up block as executed: the bare `except:` prints
"No pop-up found, continuing to next step." and falls through. -/
def tryDismissWarning (env : Env) : Except Err Unit :=
  match dismissWarningAttempt env with
  | .ok _ => .ok ()
  | .error _ => .ok ()

theorem tryDismissWarning_ok (env : Env) : tryDismissWarning env = .ok () := by
  cases h : dismissWarningAttempt env <;> simp [tryDismissWarning, h]

/-- Body of the per-row try block (leePA_03.py, lines 110-187): search,
dismiss the pop-up, follow the result link, click the ownership image, then
alternately extract a field and write it (C, D, E, F, S at row `i`).
Returns the writes already performed when the block ended and the exception
that ended it, if any. -/
def rowBody (env : Env) (i : Nat) : List Write × Option Err :=
  if ¬ env.strapInput then ([], some .timeout)
  else
    match tryDismissWarning env with
    | .error e => ([], some e)
    | .ok _ =>
      if ¬ env.resultHref then ([], some .timeout)
      else if ¬ env.img then ([], some .timeout)
      else
        match env.ownership with
        | none => ([], some .noSuchElement)
        | some own =>
          if ¬ env.writeOk then ([], some .apiError)
          else
            let w1 : List Write := [⟨⟨"C", i⟩, own⟩]
            match env.additional with
            | none => (w1, some .noSuchElement)
            | some add =>
              let w2 := w1 ++ [⟨⟨"D", i⟩, add⟩]
              if ¬ env.valuesTab then (w2, some .noSuchElement)
              else
                match env.valueGrid with
                | none => (w2, some .timeout)
                | some pv =>
                  let w3 := w2 ++ [⟨⟨"E", i⟩, pv⟩]
                  match env.bldg with
                  | none => (w3, some .noSuchElement)
                  | some bi =>
                    let w4 := w3 ++ [⟨⟨"F", i⟩, bi⟩]
                    match env.fullSite with
                    | none => (w4, some .noSuchElement)
                    | some fs => (w4 ++ [⟨⟨"S", i⟩, fs⟩], none)

/-- Trace of one processed row. -/
structure RowTrace where
  writes : List Write
  opens : Nat
  closes : Nat
  err : Option Err
deriving DecidableEq

/-- One iteration of the row loop (leePA_03.py, lines 104-193).  The Firefox
driver is created OUTSIDE the try block, so a launch failure crashes the
whole run (`none`); otherwise the try/except/finally guarantees
`driver.quit()` on every path, success or exception. -/
def processRow (env : Env) (i : Nat) : Option RowTrace :=
  if ¬ env.launchOk then none
  else
    let r := rowBody env i
    some ⟨r.1, 1, 1, r.2⟩

/-- The batch loop (leePA_03.py, line 96): `owner = row[0] if row else None`;
skip falsy or whitespace-only owners; else process the row.  Returns the
traces of the processed rows paired with their sheet row numbers, and a flag
saying whether the run crashed (uncaught launch failure). -/
def runRows (envs : Nat → Env) : List (List String) → Nat → List (Nat × RowTrace) × Bool
  | [], _ => ([], false)
  | row :: rest, i =>
    let owner := row.headD ""
    if owner = "" ∨ pyStrip owner = "" then runRows envs rest (i + 1)
    else
      match processRow (envs i) i with
      | none => ([], true)
      | some tr =>
        let r := runRows envs rest (i + 1)
        ((i, tr) :: r.1, r.2)

/-- The sheet rows the batch loop does not skip, with their row numbers. -/
def nonblankRows : List (List String) → Nat → List Nat
  | [], _ => []
  | row :: rest, i =>
    let owner := row.headD ""
    if owner = "" ∨ pyStrip owner = "" then nonblankRows rest (i + 1)
    else i :: nonblankRows rest (i + 1)

end LeePA03

namespace HendryPA

/-- Exceptions a row of hendryPA.py's loop can end with (the input-box miss
is caught by an inner except that just continues to the next row). -/
inductive Err
  | nav
  | inputNotFound
  | timeout
  | noSuchElement
deriving DecidableEq

/-- Per-row environment for `fetch_data_and_update_sheet` (hendryPA.py). -/
structure Env where
  navOk : Bool
  warningButton : Bool
  siteInput : Bool
  owner1 : Option String
  owner2 : Option String
  ownerAddr : Option String
  salesCell : Option String
  valuation : Option String
deriving DecidableEq

/-- The warning block before its except swallows failures (hendryPA.py,
lines 79-88): wait up to 5s for the dismiss button to be clickable, move the
mouse to it, click. -/
def dismissWarningAttempt (env : Env) : Except Err Unit :=
  if env.warningButton then .ok () else .error .timeout

/-- The warning block as executed: `except Exception` prints
"Warning button not found or clickable, continuing..." and falls through. -/
def tryDismissWarning (env : Env) : Except Err Unit :=
  match dismissWarningAttempt env with
  | .ok _ => .ok ()
  | .error _ => .ok ()

theorem hendry_tryDismissWarning_ok (env : Env) : tryDismissWarning env = .ok () := by
  cases h : dismissWarningAttempt env <;> simp [tryDismissWarning, h]

/-- Body of one iteration of the row loop (hendryPA.py, lines 73-166) for
sheet row `r`: navigate back to the search page, best-effort dismiss the
warning, find the parcel box (inner try: absence means `continue`), then
alternately wait/extract and write Z, AA, AB, AC, AD at row `r`.  Returns
the writes performed and the reason the row ended early, if any. -/
def rowBody (env : Env) (r : Nat) : List Write × Option Err :=
  if ¬ env.navOk then ([], some .nav)
  else
    match tryDismissWarning env with
    | .error e => ([], some e)
    | .ok _ =>
      if ¬ env.siteInput then ([], some .inputNotFound)
      else
        match env.owner1 with
        | none => ([], some .timeout)
        | some o1 =>
          let w1 : List Write := [⟨⟨"Z", r⟩, o1⟩]
          match env.owner2 with
          | none => (w1, some .timeout)
          | some o2 =>
            let w2 := w1 ++ [⟨⟨"AA", r⟩, o2⟩]
            match env.ownerAddr with
            | none => (w2, some .noSuchElement)
            | some ad =>
              let w3 := w2 ++ [⟨⟨"AB", r⟩, ad⟩]
              match env.salesCell with
              | none => (w3, some .timeout)
              | some sv =>
                let w4 := w3 ++ [⟨⟨"AC", r⟩, sv⟩]
                match env.valuation with
                | none => (w4, some .noSuchElement)
                | some bv => (w4 ++ [⟨⟨"AD", r⟩, bv⟩], none)

end HendryPA

namespace LeePASkip

/-- Environment for `fetch_page_html` (leePA+skip_Bot.py, line 189). -/
structure FetchEnv where
  launchOk : Bool
  gotoOk : Bool
deriving DecidableEq

/-- Result of `fetch_page_html` plus the browser lifecycle it caused. -/
structure FetchTrace where
  page : Bool
  opens : Nat
  closes : Nat
deriving DecidableEq

/-- Embedding of `fetch_page_html` (leePA+skip_Bot.py, lines 189-208):
non-http URLs return `(None, None)` before launching; after a successful
launch, a navigation failure is caught by the except branch, which returns
`(None, None)` without closing the browser it just launched. -/
def fetch_page_html (url : String) (env : FetchEnv) : FetchTrace :=
  if ¬ ("http".data.isPrefixOf url.data) then ⟨false, 0, 0⟩
  else if ¬ env.launchOk then ⟨false, 0, 0⟩
  else if ¬ env.gotoOk then ⟨false, 1, 0⟩
  else ⟨true, 1, 0⟩

/-- The browser lifecycle of one URL iteration of `main` (leePA+skip_Bot.py,
lines 265-320): when `fetch_page_html` hands back a page, the extraction
blocks run (their errors are caught locally) and `browser.close()` is
reached; when it hands back `(None, None)`, the loop prints
"Failed to fetch the page." and closes nothing. -/
def row_browser_trace (url : String) (env : FetchEnv) : FetchTrace :=
  let f := fetch_page_html url env
  if f.page then ⟨f.page, f.opens, f.closes + 1⟩ else f

/-- Embedding of the skip test of the selenium loop in
`fetch_data_and_update_sheet` (leePA+skip_Bot.py, lines 98-104):
`owner = owner_row[0] if owner_row else None; if not owner: continue` —
only emptiness is tested, the key is never stripped.  Returns the sheet rows
for which the selenium row processor is invoked. -/
def processedRows (owners urls : List (List String)) : List Nat :=
  (owners.zip urls).enum.filterMap fun p =>
    match p.2.1.head? with
    | none => none
    | some s => if s = "" then none else some (p.1 + 2)

end LeePASkip

namespace MainPy

/-- An anchor harvested by `extract_links` (main.py, line 259): absolute URL
plus text extracted with `get_text(strip=True)` (already trimmed). -/
structure Entry where
  link : String
  text : String
deriving DecidableEq

/-- One `match_entries` result: the entry's fields plus the matched
reference name. -/
structure MatchResult where
  link : String
  text : String
  matched_to : String
deriving DecidableEq

/-- A Python `\w` word character (ASCII fragment). -/
def isWordChar (c : Char) : Bool := c.isAlphanum || c = '_'

/-- Helper of `splitWords`: accumulate the current run of word characters. -/
def splitWordsAux : List Char → List Char → List String
  | [], acc => if acc.isEmpty then [] else [String.mk acc.reverse]
  | c :: cs, acc =>
    if isWordChar c then splitWordsAux cs (c :: acc)
    else if acc.isEmpty then splitWordsAux cs []
    else String.mk acc.reverse :: splitWordsAux cs []

/-- Python `re.findall(r'\w+', s)`: the maximal runs of word characters. -/
def splitWords (s : String) : List String := splitWordsAux s.data []

/-- Python `<` on strings: lexicographic comparison by code point, written on
character lists so that it evaluates by kernel reduction. -/
def pyLtChars : List Char → List Char → Bool
  | [], [] => false
  | [], _ :: _ => true
  | _ :: _, [] => false
  | a :: as, b :: bs =>
    if a.toNat < b.toNat then true
    else if b.toNat < a.toNat then false
    else pyLtChars as bs

/-- Python `a <= b` on strings. -/
def pyLe (a b : String) : Bool := ! pyLtChars b.data a.data

/-- Insert into a sorted list (ascending string order). -/
def insertSorted (s : String) : List String → List String
  | [] => [s]
  | t :: ts => if pyLe s t then s :: t :: ts else t :: insertSorted s ts

/-- Python `sorted` on strings (ascending lexicographic). -/
def pySorted (l : List String) : List String := l.foldr insertSorted []

/-- Python `' '.join(words)`. -/
def joinSpace : List String → String
  | [] => ""
  | [s] => s
  | s :: rest => s ++ " " ++ joinSpace rest

/-- Embedding of `normalize_and_sort` (main.py, line 112):
`' '.join(sorted(re.findall(r'\w+', text.upper())))`. -/
def normalize_and_sort (text : String) : String :=
  joinSpace (pySorted (splitWords (pyUpper text)))

/-- Embedding of `match_entries` (main.py, line 133): for every entry and
every reference name, keep the pair whenever one normalized string contains
the other. -/
def match_entries (extracted : List Entry) (ref_names : List String) :
    List MatchResult :=
  extracted.flatMap fun e =>
    ref_names.filterMap fun ref =>
      let nt := normalize_and_sort e.text
      let nr := normalize_and_sort ref
      if pyContains nt nr || pyContains nr nt then some ⟨e.link, e.text, ref⟩
      else none

/-- The combined cell text built by `log_matches_to_sheet` (main.py,
line 156): `f"{entry_text} (Matched: {match_label})"`. -/
def combined_entry (m : MatchResult) : String :=
  m.text ++ " (Matched: " ++ m.matched_to ++ ")"

/-- Embedding of the `values` list of `log_matches_to_sheet` (main.py,
lines 149-158): each match contributes the labelled text and then the raw
link, in two consecutive columns. -/
def log_matches_values (matched : List MatchResult) : List String :=
  matched.flatMap fun m => [combined_entry m, m.link]

/-- Per-row environment for the batch loop of `main` (main.py).
`entries` abstracts the fetch + `extract_links` composite, whose failures
are all caught inside `fetch_truepeoplesearch_data` and its Browserless
fallback (an empty list stands for "nothing fetched/extracted").
`refsOk` is the outcome of the un-guarded `extract_reference_names` Sheets
read; `writeOk` the outcome of the un-guarded `update_sheet_data` call. -/
structure RowEnv where
  entries : List Entry
  refsOk : Bool
  refs : List String
  writeOk : Bool
deriving DecidableEq

/-- Embedding of the batch loop of `main` (main.py, lines 283-320).  Returns
the row numbers that were handled (processed or skipped by a `continue`) and
whether an uncaught exception aborted the run: `extract_reference_names`
(line 309) and `log_matches_to_sheet`/`update_sheet_data` (line 318) are the
two calls in the loop not wrapped in any try/except. -/
def processRows (envs : Nat → RowEnv) : List (Nat × String) → List Nat × Bool
  | [] => ([], false)
  | (i, url) :: rest =>
    if pyStrip url = "" then processRows envs rest
    else
      let env := envs i
      if env.entries.isEmpty then
        let r := processRows envs rest
        (i :: r.1, r.2)
      else if ¬ env.refsOk then ([i], true)
      else if env.refs.isEmpty then
        let r := processRows envs rest
        (i :: r.1, r.2)
      else
        let matched := match_entries env.entries env.refs
        if matched.isEmpty then
          let r := processRows envs rest
          (i :: r.1, r.2)
        else
          let values := log_matches_values matched
          if values.isEmpty then
            let r := processRows envs rest
            (i :: r.1, r.2)
          else if env.writeOk then
            let r := processRows envs rest
            (i :: r.1, r.2)
          else ([i], true)

/-- Outcome of one Playwright attempt inside `fetch_truepeoplesearch_data`:
page content, a `PlaywrightTimeout`, or any other exception (both are
caught and lead to the next attempt). -/
inductive FetchOutcome
  | content (s : String)
  | timeout
  | error
deriving DecidableEq

/-- Embedding of the `for attempt in range(1, MAX_RETRIES + 1)` loop of
`fetch_truepeoplesearch_data` (main.py, lines 222-257), with CAPTCHA
detection on returned content.  Arguments: remaining attempts, current
attempt number.  Returns (attempts performed, content if one succeeded);
`none` means the code falls through to the Browserless fallback. -/
def fetch_attempts (outcomes : Nat → FetchOutcome) : Nat → Nat → Nat × Option String
  | 0, _ => (0, none)
  | budget + 1, k =>
    match outcomes k with
    | .content s =>
      if pyContains (pyLower s) "captcha" || pyContains (pyLower s) "are you a human"
      then
        let r := fetch_attempts outcomes budget (k + 1)
        (r.1 + 1, r.2)
      else (1, some s)
    | .timeout =>
      let r := fetch_attempts outcomes budget (k + 1)
      (r.1 + 1, r.2)
    | .error =>
      let r := fetch_attempts outcomes budget (k + 1)
      (r.1 + 1, r.2)

/-- `fetch_truepeoplesearch_data` with `MAX_RETRIES = 3`. -/
def fetch_truepeoplesearch_attempts (outcomes : Nat → FetchOutcome) :
    Nat × Option String :=
  fetch_attempts outcomes 3 1

theorem fetch_attempts_le (outcomes : Nat → FetchOutcome) :
    ∀ (budget k : Nat), (fetch_attempts outcomes budget k).1 ≤ budget := by
  intro budget
  induction budget with
  | zero => intro k; simp [fetch_attempts]
  | succ b ih =>
    intro k
    show (fetch_attempts outcomes (b + 1) k).1 ≤ b + 1
    rw [fetch_attempts]
    cases outcomes k with
    | content s =>
      by_cases hc : (pyContains (pyLower s) "captcha" ||
          pyContains (pyLower s) "are you a human") = true
      · simp only [hc, if_pos]
        have := ih (k + 1)
        simpa using this
      · simp only [Bool.not_eq_true] at hc
        simp [hc]
    | timeout =>
      have := ih (k + 1)
      simpa using this
    | error =>
      have := ih (k + 1)
      simpa using this

end MainPy

namespace RapidAPI

/-- Outcome of one `page.goto` inside `fetch_page_html`: success, a timeout
(handled by the first except branch), or a network error (handled by the
second). -/
inductive GotoResult
  | ok
  | timeout
  | networkError
deriving DecidableEq

/-- Observable state of the retry loop after a bounded number of
iterations. -/
inductive LoopOutcome
  | returned (gotPage : Bool)
  | failedCaught
  | stillRunning (attempt : Nat)
deriving DecidableEq

/-- Embedding of the `while attempt < retries` loop of `fetch_page_html`
(rapid_API.py, lines 104-120), with explicit iteration fuel (each loop
iteration consumes one unit; `stillRunning` reports the attempt counter when
the fuel runs out with the loop still going).  The timeout branch sleeps and
retries WITHOUT incrementing `attempt`; only the network-error branch
increments it and, on the last attempt, re-raises (the outer handler then
closes the browser and returns `(None, None)` — `failedCaught`). -/
def fetchLoop (outcomes : Nat → GotoResult) (retries : Nat) :
    Nat → Nat → Nat → LoopOutcome
  | 0, _, attempt => .stillRunning attempt
  | fuel + 1, iter, attempt =>
    if attempt < retries then
      match outcomes iter with
      | .ok => .returned true
      | .timeout => fetchLoop outcomes retries fuel (iter + 1) attempt
      | .networkError =>
        if attempt + 1 = retries then .failedCaught
        else fetchLoop outcomes retries fuel (iter + 1) (attempt + 1)
    else .returned false

theorem fetchLoop_timeout_forever (fuel iter : Nat) :
    fetchLoop (fun _ => GotoResult.timeout) 3 fuel iter 0 =
      LoopOutcome.stillRunning 0 := by
  induction fuel generalizing iter with
  | zero => rfl
  | succ f ih =>
    show fetchLoop (fun _ => GotoResult.timeout) 3 (f + 1) iter 0 = _
    rw [fetchLoop]
    simpa using ih (iter + 1)

end RapidAPI

namespace LeePA03

/-- When every per-row driver launch succeeds, the batch loop never crashes
and emits exactly one trace per non-blank row, in order. -/
theorem runRows_no_crash (envs : Nat → Env) (rows : List (List String)) :
    ∀ i, (∀ j, (envs j).launchOk = true) →
      (runRows envs rows i).2 = false ∧
      (runRows envs rows i).1.map Prod.fst = nonblankRows rows i := by
  induction rows with
  | nil => intro i _; exact ⟨rfl, rfl⟩
  | cons row rest ih =>
    intro i h
    simp only [runRows, nonblankRows]
    by_cases hb : row.headD "" = "" ∨ pyStrip (row.headD "") = ""
    · simp only [if_pos hb]
      exact ih (i + 1) h
    · simp only [if_neg hb]
      have hl : (envs i).launchOk = true := h i
      have hpr : processRow (envs i) i =
          some ⟨(rowBody (envs i) i).1, 1, 1, (rowBody (envs i) i).2⟩ := by
        simp [processRow, hl]
      rw [hpr]
      obtain ⟨h1, h2⟩ := ih (i + 1) h
      simp [h1, h2]

end LeePA03

/-- C1 counterexample: in leePA+skip_Bot.py, when the browser launch succeeds
but the navigation in `fetch_page_html` fails, the except branch returns
`(None, None)` with the browser still open, and the calling row prints
"Failed to fetch the page." and never closes it: the row ends with one open
and zero closes. -/
theorem C1_counterexample :
    (LeePASkip.row_browser_trace "http://x" ⟨true, false⟩).opens = 1 ∧
    (LeePASkip.row_browser_trace "http://x" ⟨true, false⟩).closes = 0 :=
  ⟨by decide, by decide⟩

/-- C1 as amended: in leePA_03.py and palmBayPA4.py every browser session
opened for a row is closed exactly once on every exit path (success,
extraction exception, timeout): leePA_03's try/except/finally quits the
driver whenever the launch succeeded, and palmBayPA4's `process_row` closes
exactly the drivers it opened; leePA+skip_Bot.py is excluded, since its
`fetch_page_html` leaks the browser when navigation fails. -/
theorem C1_sessions_closed :
    (∀ (env : LeePA03.Env) (i : Nat), env.launchOk = true →
        ((LeePA03.processRow env i).map fun t => (t.opens, t.closes)) = some (1, 1)) ∧
    (∀ (env : PalmBayPA4.RowEnv) (i : Nat),
        (PalmBayPA4.process_row env i).closes = (PalmBayPA4.process_row env i).opens ∧
        (PalmBayPA4.process_row env i).opens ≤ 1) := by
  constructor
  · intro env i h
    simp [LeePA03.processRow, h]
  · intro env i
    by_cases h1 : env.launchOk = true
    · by_cases h2 : env.siteInput = true
      · by_cases h3 : env.resultAnchor = true
        · simp [PalmBayPA4.process_row, h1, h2, h3]
        · simp [PalmBayPA4.process_row, h1, h2, h3]
      · simp [PalmBayPA4.process_row, h1, h2]
    · simp [PalmBayPA4.process_row, h1]

/-- Witness for C1 at a concrete row environment (launch succeeds, the strap
input then times out): the session is opened once and closed once. -/
theorem C1_sessions_closed_witness :
    ((LeePA03.processRow
        ⟨true, false, false, false, false, false, none, none, false, none, none,
          none, false⟩ 5).map fun t => (t.opens, t.closes)) = some (1, 1) :=
  C1_sessions_closed.1
    ⟨true, false, false, false, false, false, none, none, false, none, none,
      none, false⟩ 5 rfl

/-- C2 counterexample: in leePA_03.py, when the search, pop-up, result link,
image and ownership/additional extractions all succeed but the required
value-grid anchor never appears, the row fails on a timeout AFTER cells C7
and D7 were already written: a required anchor's absence does not prevent
partial writes. -/
theorem C2_counterexample :
    LeePA03.rowBody
        ⟨true, true, false, false, true, true, some "OWN", some "ADD", true,
          none, none, none, true⟩ 7 =
      ([⟨⟨"C", 7⟩, "OWN"⟩, ⟨⟨"D", 7⟩, "ADD"⟩], some LeePA03.Err.timeout) ∧
    ([⟨⟨"C", 7⟩, "OWN"⟩, ⟨⟨"D", 7⟩, "ADD"⟩] : List Write) ≠ [] :=
  ⟨by decide, by decide⟩

/-- C2 as amended: when the FIRST results anchor (leePA_03's result link /
hendryPA's first owner field) never appears, the row performs zero sink
writes and the batch advances to the next row exactly once; but if a later
required anchor fails after some fields were extracted, the writes already
performed for those fields stand (the scripts write each field as soon as it
is extracted). -/
theorem C2_wait_result_timeout :
    (∀ (env : LeePA03.Env) (i : Nat), env.resultHref = false →
        LeePA03.rowBody env i = ([], some LeePA03.Err.timeout)) ∧
    (∀ (env : HendryPA.Env) (r : Nat),
        env.navOk = true → env.siteInput = true → env.owner1 = none →
        HendryPA.rowBody env r = ([], some HendryPA.Err.timeout)) ∧
    (∀ (envs : Nat → LeePA03.Env) (rows : List (List String)) (i : Nat),
        (∀ j, (envs j).launchOk = true) →
        (LeePA03.runRows envs rows i).2 = false ∧
        (LeePA03.runRows envs rows i).1.map Prod.fst = LeePA03.nonblankRows rows i) := by
  refine ⟨?_, ?_, fun envs rows i h => LeePA03.runRows_no_crash envs rows i h⟩
  · intro env i h
    by_cases hs : env.strapInput = true <;>
      simp [LeePA03.rowBody, LeePA03.tryDismissWarning_ok, hs, h]
  · intro env r h1 h2 h3
    simp [HendryPA.rowBody, HendryPA.hendry_tryDismissWarning_ok, h1, h2, h3]

/-- Witness for C2 at a concrete environment where the result link never
appears: no writes, a timeout, and a two-row batch emits one trace per
non-blank row. -/
theorem C2_wait_result_timeout_witness :
    LeePA03.rowBody
        ⟨true, true, false, false, false, false, none, none, false, none, none,
          none, true⟩ 9 = ([], some LeePA03.Err.timeout) :=
  C2_wait_result_timeout.1
    ⟨true, true, false, false, false, false, none, none, false, none, none,
      none, true⟩ 9 rfl

namespace MainPy

/-- When the un-guarded Sheets calls of main.py's loop all succeed, the run
never aborts and every row is handled exactly once (processed or skipped). -/
theorem processRows_no_crash (envs : Nat → RowEnv) (rows : List (Nat × String)) :
    (∀ j, (envs j).refsOk = true ∧ (envs j).writeOk = true) →
    (processRows envs rows).2 = false ∧
    (processRows envs rows).1 =
      rows.filterMap fun p => if pyStrip p.2 = "" then none else some p.1 := by
  induction rows with
  | nil => intro _; exact ⟨rfl, rfl⟩
  | cons p rest ih =>
    intro h
    obtain ⟨i, url⟩ := p
    obtain ⟨hr, hw⟩ := h i
    obtain ⟨h1, h2⟩ := ih h
    simp only [processRows]
    by_cases hu : pyStrip url = ""
    · simp only [if_pos hu]
      rw [List.filterMap_cons]
      simp only [if_pos hu]
      exact ⟨h1, h2⟩
    · simp only [if_neg hu]
      rw [List.filterMap_cons]
      simp only [if_neg hu]
      by_cases he : (envs i).entries.isEmpty <;>
        by_cases hrf : (envs i).refs.isEmpty <;>
          by_cases hm : (match_entries (envs i).entries (envs i).refs).isEmpty <;>
            by_cases hv :
              (log_matches_values
                (match_entries (envs i).entries (envs i).refs)).isEmpty <;>
              simp [he, hrf, hm, hv, hr, hw, h1, h2]

end MainPy

/-- C3 counterexample: in main.py, `log_matches_to_sheet`/`update_sheet_data`
is called without any try/except inside the batch loop, so a Sheets API
failure while writing row 2's matches aborts the whole run: the crash flag is
set and row 3 is never handled — the write error is not converted to a
logged skip. -/
theorem C3_counterexample :
    (MainPy.processRows
        (fun _ => ⟨[⟨"L", "JOHN DOE"⟩], true, ["JOHN DOE"], false⟩)
        [(2, "u1"), (3, "u2")]).2 = true ∧
    ¬ (3 ∈ (MainPy.processRows
        (fun _ => ⟨[⟨"L", "JOHN DOE"⟩], true, ["JOHN DOE"], false⟩)
        [(2, "u1"), (3, "u2")]).1) :=
  ⟨by decide, by decide⟩

/-- C3 as amended: in the per-row scraper scripts every row-scoped error —
element failures, timeouts, and sink write API failures alike — is caught at
the row boundary and the batch continues (leePA_03's loop finishes every
non-blank row no matter what the row environment does, provided the driver
launches); main.py's loop converts fetch/extraction failures into skips, but
its two un-guarded Sheets calls (`extract_reference_names` and
`update_sheet_data`) abort the whole run on failure. -/
theorem C3_row_errors_isolated :
    (∀ (envs : Nat → LeePA03.Env) (rows : List (List String)) (i : Nat),
        (∀ j, (envs j).launchOk = true) →
        (LeePA03.runRows envs rows i).2 = false) ∧
    (∀ (envs : Nat → MainPy.RowEnv) (rows : List (Nat × String)),
        (∀ j, (envs j).refsOk = true ∧ (envs j).writeOk = true) →
        (MainPy.processRows envs rows).2 = false ∧
        (MainPy.processRows envs rows).1 =
          rows.filterMap fun p => if pyStrip p.2 = "" then none else some p.1) :=
  ⟨fun envs rows i h => (LeePA03.runRows_no_crash envs rows i h).1,
   fun envs rows h => MainPy.processRows_no_crash envs rows h⟩

/-- Witness for C3: a leePA_03 batch whose only row fails with a sheet-write
error still finishes without crashing, and a main.py batch with healthy
Sheets calls handles both rows. -/
theorem C3_row_errors_isolated_witness :
    (LeePA03.runRows
        (fun _ => ⟨true, true, false, false, true, true, some "OWN", none, false,
          none, none, none, false⟩) [["k"]] 2).2 = false ∧
    (MainPy.processRows (fun _ => ⟨[], true, [], true⟩)
        [(2, "u1"), (3, "u2")]).1 = [2, 3] :=
  ⟨C3_row_errors_isolated.1
      (fun _ => ⟨true, true, false, false, true, true, some "OWN", none, false,
        none, none, none, false⟩) [["k"]] 2 (fun _ => rfl),
   by
    have h := (C3_row_errors_isolated.2 (fun _ => ⟨[], true, [], true⟩)
      [(2, "u1"), (3, "u2")] (fun _ => ⟨rfl, rfl⟩)).2
    rw [h]
    decide⟩

/-- C4 counterexample: in rapid_API.py's `fetch_page_html`, the timeout
branch of the retry loop never increments `attempt`, so when every `goto`
times out the loop is still running — with the attempt counter still at 0 —
after 10 iterations, more than the advertised bound of 3 attempts. -/
theorem C4_counterexample :
    RapidAPI.fetchLoop (fun _ => RapidAPI.GotoResult.timeout) 3 10 0 0 =
      RapidAPI.LoopOutcome.stillRunning 0 := by decide

/-- C4 as amended: leePA_03's `make_request_with_retries` performs at most
`retries` attempts, sleeping `backoff * 2^(k+1)` before re-attempt `k`
(exponential backoff), and always terminates within that bound;
main.py's `fetch_truepeoplesearch_data` performs at most 3 attempts (with no
inter-attempt backoff) before falling back; rapid_API.py's `fetch_page_html`
increments its attempt counter only on network errors, so a run of timeouts
keeps it looping for any number of iterations with the counter stuck at 0. -/
theorem C4_retry_bounds :
    (∀ (outcomes : Nat → LeePA03.AttemptResult) (retries backoff : Nat),
        (LeePA03.make_request_with_retries outcomes retries backoff).attemptsMade ≤
          retries ∧
        ∀ (k : Nat)
          (h : k < (LeePA03.make_request_with_retries outcomes retries
            backoff).delays.length),
          (LeePA03.make_request_with_retries outcomes retries backoff).delays.get
              ⟨k, h⟩ = backoff * 2 ^ (k + 1)) ∧
    (∀ outcomes : Nat → MainPy.FetchOutcome,
        (MainPy.fetch_truepeoplesearch_attempts outcomes).1 ≤ 3) ∧
    (∀ fuel iter : Nat,
        RapidAPI.fetchLoop (fun _ => RapidAPI.GotoResult.timeout) 3 fuel iter 0 =
          RapidAPI.LoopOutcome.stillRunning 0) := by
  refine ⟨fun outcomes retries backoff => ⟨?_, ?_⟩,
    fun outcomes => MainPy.fetch_attempts_le outcomes 3 1,
    RapidAPI.fetchLoop_timeout_forever⟩
  · exact LeePA03.requestLoop_attempts_le outcomes backoff retries 0
  · intro k h
    have hd := LeePA03.requestLoop_delays outcomes backoff retries 0 k h
    simpa using hd

/-- Witness for C4 with three consecutive protocol errors: three attempts,
first backoff delay 2 = 1 * 2^1. -/
theorem C4_retry_bounds_witness :
    (LeePA03.make_request_with_retries
        (fun _ => LeePA03.AttemptResult.protocolError) 3 1).attemptsMade ≤ 3 ∧
    (LeePA03.make_request_with_retries
        (fun _ => LeePA03.AttemptResult.protocolError) 3 1).delays.get
        ⟨0, by decide⟩ = 1 * 2 ^ (0 + 1) :=
  ⟨(C4_retry_bounds.1 (fun _ => LeePA03.AttemptResult.protocolError) 3 1).1,
   (C4_retry_bounds.1 (fun _ => LeePA03.AttemptResult.protocolError) 3 1).2 0
     (by decide)⟩

/-- C7 counterexample: leePA+skip_Bot.py tests only `if not owner`, without
stripping, so a whitespace-only key `" "` in row 2 is NOT skipped: the
selenium row processor is invoked for it. -/
theorem C7_counterexample :
    LeePASkip.processedRows [[" "]] [["u"]] = [2] ∧
    LeePASkip.processedRows [[" "]] [["u"]] ≠ [] :=
  ⟨by decide, by decide⟩

/-- C7 as amended: rows whose key strips to the empty string are skipped
before any browser work or sink write in leePA_03, palmBayPA4 and main.py;
leePA+skip_Bot skips only keys that are entirely empty (missing cell or
`""`), and still invokes the row processor on whitespace-only keys. -/
theorem C7_blank_keys_skipped :
    (∀ (envs : Nat → LeePA03.Env) (row : List String)
        (rest : List (List String)) (i : Nat),
        pyStrip (row.headD "") = "" →
        LeePA03.runRows envs (row :: rest) i = LeePA03.runRows envs rest (i + 1)) ∧
    (∀ (envs : Nat → PalmBayPA4.RowEnv) (row : List String)
        (rest : List (List String)) (i : Nat),
        pyStrip (row.headD "") = "" →
        PalmBayPA4.runRows envs (row :: rest) i =
          PalmBayPA4.runRows envs rest (i + 1)) ∧
    (∀ (envs : Nat → MainPy.RowEnv) (i : Nat) (url : String)
        (rest : List (Nat × String)),
        pyStrip url = "" →
        MainPy.processRows envs ((i, url) :: rest) = MainPy.processRows envs rest) ∧
    (∀ (owners urls : List (List String)) (k : Nat),
        (∀ h : k < (owners.zip urls).length,
          ((owners.zip urls).get ⟨k, h⟩).1.headD "" = "") →
        ¬ (k + 2) ∈ LeePASkip.processedRows owners urls) := by
  refine ⟨?_, ?_, ?_, ?_⟩
  · intro envs row rest i h
    simp only [LeePA03.runRows]
    rw [if_pos (Or.inr h)]
  · intro envs row rest i h
    simp only [PalmBayPA4.runRows]
    cases hrow : row.head? with
    | none => rfl
    | some s =>
      have hs : pyStrip s = "" := by
        have : row.headD "" = s := by simp [List.headD_eq_head?, hrow]
        rw [this] at h
        exact h
      rw [if_pos hs]
  · intro envs i url rest h
    simp only [MainPy.processRows]
    rw [if_pos h]
  · intro owners urls k hblank hmem
    obtain ⟨⟨j, pair⟩, hjmem, hj⟩ :=
      List.mem_filterMap.mp hmem
    have hget : (owners.zip urls)[j]? = some pair :=
      List.mk_mem_enum_iff_getElem?.mp hjmem
    have hjlen : j < (owners.zip urls).length := by
      by_contra hc
      rw [List.getElem?_eq_none (by omega)] at hget
      exact Option.noConfusion hget
    cases hh : pair.1.head? with
    | none =>
      simp only [hh] at hj
      exact Option.noConfusion hj
    | some s =>
      simp only [hh] at hj
      by_cases hs : s = ""
      · rw [if_pos hs] at hj
        exact Option.noConfusion hj
      · rw [if_neg hs] at hj
        injection hj with hj2
        have hjk : j = k := by omega
        subst hjk
        have hpair : (owners.zip urls).get ⟨j, hjlen⟩ = pair := by
          have := List.getElem?_eq_getElem hjlen
          rw [this] at hget
          injection hget with hg
        have hb := hblank hjlen
        rw [hpair] at hb
        rw [List.headD_eq_head?, hh] at hb
        exact hs hb

/-- Witness for C7: a blank row is dropped by each loop, and an empty-keyed
row is not among leePA+skip_Bot's processed rows. -/
theorem C7_blank_keys_skipped_witness :
    MainPy.processRows (fun _ => ⟨[], true, [], true⟩) [(2, " ")] =
      MainPy.processRows (fun _ => ⟨[], true, [], true⟩) [] ∧
    ¬ (0 + 2) ∈ LeePASkip.processedRows [[""]] [["u"]] :=
  ⟨C7_blank_keys_skipped.2.2.1 (fun _ => ⟨[], true, [], true⟩) 2 " " [] (by decide),
   C7_blank_keys_skipped.2.2.2 [[""]] [["u"]] 0 (fun _ => rfl)⟩

/-- C8 counterexample: main.py's `log_matches_to_sheet` does not write the
extracted text as-is: the value placed in the sheet is
`"JOHN DOE (Matched: JOHN DOE)"`, the extracted text `"JOHN DOE"` with a
label appended — a transformation beyond whitespace trimming (the text was
already trimmed: stripping it is a no-op). -/
theorem C8_counterexample :
    MainPy.log_matches_values [⟨"L", "JOHN DOE", "JOHN DOE"⟩] =
      ["JOHN DOE (Matched: JOHN DOE)", "L"] ∧
    pyStrip "JOHN DOE" = "JOHN DOE" ∧
    "JOHN DOE (Matched: JOHN DOE)" ≠ "JOHN DOE" :=
  ⟨rfl, by decide, by decide⟩

/-- C8 as amended: in palmBayPA4 a successful row writes exactly the four
extracted element texts with whitespace trimmed and nothing else; main.py
writes each matched entry's link unchanged but appends
`" (Matched: <reference>)"` to the entry text before writing it. -/
theorem C8_values_written_as_extracted :
    (∀ (env : PalmBayPA4.RowEnv) (i : Nat) (o a v b : String),
        env.launchOk = true → env.siteInput = true → env.resultAnchor = true →
        env.ownership = some o → env.additional = some a →
        env.salesValue = some v → env.bldg = some b →
        (PalmBayPA4.process_row env i).writes =
          [⟨⟨"C", i⟩, pyStrip o⟩, ⟨⟨"D", i⟩, pyStrip a⟩,
           ⟨⟨"E", i⟩, pyStrip v⟩, ⟨⟨"F", i⟩, pyStrip b⟩]) ∧
    (∀ matched : List MainPy.MatchResult,
        (MainPy.log_matches_values matched).length = 2 * matched.length) ∧
    (∀ (matched : List MainPy.MatchResult) (k : Nat) (hk : k < matched.length),
        (MainPy.log_matches_values matched).get? (2 * k) =
          some ((matched.get ⟨k, hk⟩).text ++ " (Matched: " ++
            (matched.get ⟨k, hk⟩).matched_to ++ ")") ∧
        (MainPy.log_matches_values matched).get? (2 * k + 1) =
          some (matched.get ⟨k, hk⟩).link) := by
  refine ⟨?_, ?_, ?_⟩
  · intro env i o a v b h1 h2 h3 h4 h5 h6 h7
    simp [PalmBayPA4.process_row, h1, h2, h3, h4, h5, h6, h7,
      PalmBayPA4.update_google_sheet, PalmBayPA4.extract_text]
  · intro matched
    induction matched with
    | nil => rfl
    | cons m ms ih =>
      show (MainPy.combined_entry m :: m.link ::
        MainPy.log_matches_values ms).length = 2 * (ms.length + 1)
      simp only [List.length_cons, ih]
      omega
  · intro matched
    induction matched with
    | nil => intro k hk; simp at hk
    | cons m ms ih =>
      intro k hk
      cases k with
      | zero => exact ⟨rfl, rfl⟩
      | succ k =>
        have hms : k < ms.length := by simpa using Nat.lt_of_succ_lt_succ hk
        have hih := ih k hms
        have e1 : 2 * (k + 1) = 2 * k + 1 + 1 := by omega
        have e2 : 2 * (k + 1) + 1 = (2 * k + 1) + 1 + 1 := by omega
        constructor
        · rw [e1]
          show (MainPy.log_matches_values ms).get? (2 * k) = _
          exact hih.1
        · rw [e2]
          show (MainPy.log_matches_values ms).get? (2 * k + 1) = _
          exact hih.2

/-- Witness for C8 at a concrete successful palmBayPA4 row and a one-match
main.py row. -/
theorem C8_values_written_as_extracted_witness :
    (PalmBayPA4.process_row
        ⟨true, true, true, some " OWN ", some "ADD", some "$1", some "B"⟩ 4).writes =
      [⟨⟨"C", 4⟩, pyStrip " OWN "⟩, ⟨⟨"D", 4⟩, pyStrip "ADD"⟩,
       ⟨⟨"E", 4⟩, pyStrip "$1"⟩, ⟨⟨"F", 4⟩, pyStrip "B"⟩] ∧
    (MainPy.log_matches_values [⟨"L", "T", "R"⟩]).get? 0 =
      some ("T" ++ " (Matched: " ++ "R" ++ ")") :=
  ⟨C8_values_written_as_extracted.1
      ⟨true, true, true, some " OWN ", some "ADD", some "$1", some "B"⟩ 4
      " OWN " "ADD" "$1" "B" rfl rfl rfl rfl rfl rfl rfl,
   by
    have h := (C8_values_written_as_extracted.2.2 [⟨"L", "T", "R"⟩] 0 (by decide)).1
    simpa using h⟩

/-- C9: the pop-up dismissal step is best-effort in both leePA_03 and
hendryPA: the surrounding try/except returns successfully for every
environment (present or absent pop-up, missing button included), and a row
whose pop-up never appears still runs to completion when the rest of the
page behaves — the absence of the pop-up never fails the row. -/
theorem C9_popup_dismissal_best_effort :
    (∀ env : LeePA03.Env, LeePA03.tryDismissWarning env = Except.ok ()) ∧
    (∀ env : HendryPA.Env, HendryPA.tryDismissWarning env = Except.ok ()) ∧
    (∀ (env : LeePA03.Env) (i : Nat) (own add pv bi fs : String),
        env.popupPanel = false → env.strapInput = true → env.resultHref = true →
        env.img = true → env.ownership = some own → env.additional = some add →
        env.valuesTab = true → env.valueGrid = some pv → env.bldg = some bi →
        env.fullSite = some fs → env.writeOk = true →
        LeePA03.rowBody env i =
          ([⟨⟨"C", i⟩, own⟩, ⟨⟨"D", i⟩, add⟩, ⟨⟨"E", i⟩, pv⟩, ⟨⟨"F", i⟩, bi⟩,
            ⟨⟨"S", i⟩, fs⟩], none)) := by
  refine ⟨LeePA03.tryDismissWarning_ok, HendryPA.hendry_tryDismissWarning_ok, ?_⟩
  intro env i own add pv bi fs h1 h2 h3 h4 h5 h6 h7 h8 h9 h10 h11
  simp [LeePA03.rowBody, LeePA03.tryDismissWarning_ok, h2, h3, h4, h5, h6, h7,
    h8, h9, h10, h11]

/-- Witness for C9: with no pop-up and a healthy page, the row writes all
five fields and ends without error. -/
theorem C9_popup_dismissal_best_effort_witness :
    LeePA03.rowBody
        ⟨true, true, false, false, true, true, some "O", some "A", true,
          some "V", some "B", some "S", true⟩ 3 =
      ([⟨⟨"C", 3⟩, "O"⟩, ⟨⟨"D", 3⟩, "A"⟩, ⟨⟨"E", 3⟩, "V"⟩, ⟨⟨"F", 3⟩, "B"⟩,
        ⟨⟨"S", 3⟩, "S"⟩], none) :=
  C9_popup_dismissal_best_effort.2.2
    ⟨true, true, false, false, true, true, some "O", some "A", true,
      some "V", some "B", some "S", true⟩ 3 "O" "A" "V" "B" "S"
    rfl rfl rfl rfl rfl rfl rfl rfl rfl rfl rfl
